import Mathlib

/-!
Shallow embedding of the AE443 Atlas model repository.

* `src/src/lunar_logistics_models.py` — the three analytic model functions of
  `LunarLogisticsModel`, embedded over exact rationals (and reals where the
  source takes a real power).  A Python `raise ValueError` is modelled as
  `Except.error ModelError.invalidInput`.
* `src/validate_models.py` — `compute_error`, `np.nanmean` and the row loop of
  `validate_model` (the file-system and printing side effects are dropped; the
  computed columns and reported mean are returned).
* `src/src/updated_models.py` — the simulation routines.  The module-global
  random generators (`np.random`, `random`) are modelled as explicit draw
  streams passed to the embedding; the `while` loop of
  `simulate_power_availability` is modelled with an explicit fuel parameter.
-/

/-- The single error kind raised by the analytic models: `ValueError` on a
domain violation. -/
inductive ModelError where
  | invalidInput
  deriving DecidableEq

/-- `LunarLogisticsModel.payload_maneuverability`: validates
`payload_mass <= 0 or robot_power_output <= 0` then `terrain_complexity < 0`,
and returns `(robot_power_output / (payload_mass * (1 + terrain_complexity))) * K`
with the calibration constant `K = 1.05 = 21/20`.  The output is not clipped. -/
def payload_maneuverability (payload_mass robot_power_output terrain_complexity : ℚ) :
    Except ModelError ℚ :=
  if payload_mass ≤ 0 ∨ robot_power_output ≤ 0 then .error .invalidInput
  else if terrain_complexity < 0 then .error .invalidInput
  else .ok (robot_power_output / (payload_mass * (1 + terrain_complexity)) * (21 / 20))

/-- `LunarLogisticsModel.crew_time_requirements`: validates
`payload_complexity < 0` then `not (0 <= system_automation_level <= 1)`, and
returns `max 0 (scaling_factor * complexity * (1 - automation ** automation_effect))`
with `scaling_factor = 15.01` and `automation_effect = 10.41` (the Python `**`
on floats is modelled as the real power `Real.rpow`). -/
noncomputable def crew_time_requirements (payload_complexity system_automation_level : ℝ) :
    Except ModelError ℝ :=
  if payload_complexity < 0 then .error .invalidInput
  else if ¬ (0 ≤ system_automation_level ∧ system_automation_level ≤ 1) then
    .error .invalidInput
  else
    .ok (max 0 (15.01 * payload_complexity *
      (1 - system_automation_level ^ (10.41 : ℝ))))

/-- `LunarLogisticsModel.position_location_accuracy`: validates
`power_usage <= 0` then `environmental_noise < 0 or robot_path_variability < 0`,
computes `power / (power + K * (1 + noise + variability))` with `K = 50`, and
returns `max 0 (min 1 accuracy)`. -/
def position_location_accuracy (power_usage environmental_noise robot_path_variability : ℚ) :
    Except ModelError ℚ :=
  if power_usage ≤ 0 then .error .invalidInput
  else if environmental_noise < 0 ∨ robot_path_variability < 0 then .error .invalidInput
  else
    .ok (max 0 (min 1 (power_usage /
      (power_usage + 50 * (1 + environmental_noise + robot_path_variability)))))

/-- The module-level wrapper `predict_payload_maneuverability`, taking the row
inputs as a list the way `validate_model` unpacks them (`prediction_function(*inputs)`);
an argument-count mismatch, which Python would raise on, is modelled as an error. -/
def predict_payload_maneuverability (inputs : List ℚ) : Except ModelError ℚ :=
  match inputs with
  | [m, p, t] => payload_maneuverability m p t
  | _ => .error .invalidInput

/-- `compute_error` from `validate_models.py`:
`abs(predicted - actual) / actual * 100 if actual != 0 else np.nan`.
The `np.nan` sentinel is modelled as `none`. -/
def compute_error (predicted actual : ℚ) : Option ℚ :=
  if actual ≠ 0 then some (|predicted - actual| / actual * 100) else none

/-- `np.nanmean` on the list of per-row errors: NaN entries (`none`) contribute
0 to the sum and are excluded from the count; an all-NaN list yields NaN. -/
def nanmean (errors : List (Option ℚ)) : Option ℚ :=
  let cnt := (errors.filter (fun o => o.isSome)).length
  if cnt = 0 then none
  else some ((errors.map (fun o => o.getD 0)).sum / cnt)

/-- One row of a validation dataset: the input columns in the prediction
function's order, and the reference output column. -/
structure ValidationRow where
  inputs : List ℚ
  actual : ℚ
  deriving DecidableEq

/-- The computational core of `validate_model`: the first loop computes the
per-row errors (an exception raised by `prediction_function` propagates,
aborting the batch), the list comprehension recomputes the `Predicted` column,
and `np.nanmean(errors)` is the reported mean.  Returns
`(Predicted column, Error column, mean error)`. -/
def validate_model (prediction_function : List ℚ → Except ModelError ℚ)
    (rows : List ValidationRow) :
    Except ModelError (List ℚ × List (Option ℚ) × Option ℚ) := do
  let errors ← rows.mapM (fun row => do
    let predicted ← prediction_function row.inputs
    pure (compute_error predicted row.actual))
  let predictedCol ← rows.mapM (fun row => prediction_function row.inputs)
  pure (predictedCol, errors, nanmean errors)

/-- The error raised by a Python float division by zero inside a simulation
routine (the routines themselves perform no input validation). -/
inductive SimError where
  | zeroDivisionError
  deriving DecidableEq

/-- `simulate_rover_tasks` from `updated_models.py`:
`time_per_task = task_distance / rover_speed` (a float `ZeroDivisionError` when
`rover_speed` is 0), then `for _ in range(num_rovers)` adds
`simulation_time // time_per_task` (float floor division, `ZeroDivisionError`
when `time_per_task` is 0) to the accumulator, and the integral total is
returned.  `range` of a negative `num_rovers` is empty, hence `Int.toNat`. -/
def simulate_rover_tasks (num_rovers : ℤ) (rover_speed task_distance simulation_time : ℚ) :
    Except SimError ℤ :=
  if rover_speed = 0 then .error .zeroDivisionError
  else
    let time_per_task := task_distance / rover_speed
    (List.range num_rovers.toNat).foldlM
      (fun tasks_completed _ =>
        if time_per_task = 0 then .error .zeroDivisionError
        else .ok (tasks_completed + ⌊simulation_time / time_per_task⌋))
      (0 : ℤ)

/-- The shipment loop of `simulate_cargo_flow`: iterates over the drawn
shipment count; each shipment's processing time is doubled when the next
uniform draw is below `delay_probability`; a shipment is processed if it fits
in the remaining window, otherwise the loop breaks. -/
def cargoLoop (processing_time delay_probability simulation_time : ℚ)
    (uniformDraws : ℕ → ℚ) :
    ℕ → ℕ → ℚ → ℕ → ℕ
  | 0, _, _, processed_shipments => processed_shipments
  | remaining + 1, i, time_elapsed, processed_shipments =>
    let actual_processing :=
      processing_time * (if uniformDraws i < delay_probability then 2 else 1)
    if time_elapsed + actual_processing ≤ simulation_time then
      cargoLoop processing_time delay_probability simulation_time uniformDraws
        remaining (i + 1) (time_elapsed + actual_processing) (processed_shipments + 1)
    else processed_shipments

/-- `simulate_cargo_flow` from `updated_models.py`.  The Python function has no
random-source parameter: it draws `total_shipments` from the module-global
`np.random.poisson(arrival_rate / 24 * simulation_time)` and the per-shipment
delays from the module-global `random.random()`.  Those two hidden global
generators are modelled here as the explicit streams `poissonDraw` and
`uniformDraws`. -/
def simulate_cargo_flow (arrival_rate processing_time delay_probability simulation_time : ℚ)
    (poissonDraw : ℚ → ℕ) (uniformDraws : ℕ → ℚ) : ℕ :=
  let shipments_per_hour := arrival_rate / 24
  let total_shipments := poissonDraw (shipments_per_hour * simulation_time)
  cargoLoop processing_time delay_probability simulation_time uniformDraws
    total_shipments 0 0 0

/-- The `while t < simulation_time` loop of `simulate_power_availability`,
unfolded with an explicit fuel bound (the source loop has no iteration bound).
`np.random.exponential(mtbf)` is `mtbf` times a unit-mean exponential draw, so
the global generator is modelled as a stream `expDraws` of unit draws scaled by
`mtbf` in the operational state and by `mttr` in the repair state.  Arguments
after the stream: fuel, draw index, `state == "operational"`, `t`,
`operational_time`; `none` means the fuel ran out with the loop still running. -/
def powerLoop (mtbf mttr simulation_time : ℚ) (expDraws : ℕ → ℚ) :
    ℕ → ℕ → Bool → ℚ → ℚ → Option ℚ
  | 0, _, _, t, operational_time =>
    if t < simulation_time then none else some operational_time
  | fuel + 1, i, operational, t, operational_time =>
    if t < simulation_time then
      if operational then
        let time_until_failure := mtbf * expDraws i
        if t + time_until_failure > simulation_time then
          some (operational_time + (simulation_time - t))
        else
          powerLoop mtbf mttr simulation_time expDraws fuel (i + 1) false
            (t + time_until_failure) (operational_time + time_until_failure)
      else
        powerLoop mtbf mttr simulation_time expDraws fuel (i + 1) true
          (t + mttr * expDraws i) operational_time
    else some operational_time

/-- `simulate_power_availability` from `updated_models.py`: runs the two-state
loop from `state = "operational"`, `t = 0`, `operational_time = 0` and divides
the accumulated operational time by the horizon.  `none` means the given fuel
did not suffice — the source loop was still running. -/
def simulate_power_availability (mtbf mttr simulation_time : ℚ) (expDraws : ℕ → ℚ)
    (fuel : ℕ) : Option ℚ :=
  (powerLoop mtbf mttr simulation_time expDraws fuel 0 true 0 0).map
    (fun operational_time => operational_time / simulation_time)

/-- The source `while` loop terminates on the draw stream `expDraws` when some
finite fuel makes the fuel-bounded unfolding return. -/
def PowerTerminates (mtbf mttr simulation_time : ℚ) (expDraws : ℕ → ℚ) : Prop :=
  ∃ fuel r, simulate_power_availability mtbf mttr simulation_time expDraws fuel = some r

/-! ### Helper lemmas -/

/-- Binding a successful `Except` computation runs the continuation. -/
theorem except_ok_bind {α β : Type} (a : α) (f : α → Except ModelError β) :
    (Except.ok a >>= f) = f a := rfl

/-- Folding a constant successful increment over a list adds
`length * increment`. -/
theorem foldlM_const_add (c : ℤ) : ∀ (l : List ℕ) (a : ℤ),
    l.foldlM (fun acc _ => (Except.ok (acc + c) : Except SimError ℤ)) a =
      Except.ok (a + l.length * c) := by
  intro l
  induction l with
  | nil => intro a; simp; rfl
  | cons hd tl ih =>
    intro a
    simp only [List.foldlM_cons, List.length_cons]
    rw [show ((Except.ok (a + c) : Except SimError ℤ) >>= fun a2 =>
      tl.foldlM (fun acc _ => Except.ok (acc + c)) a2) =
      tl.foldlM (fun acc _ => (Except.ok (acc + c) : Except SimError ℤ)) (a + c) from rfl]
    rw [ih]
    congr 1
    push_cast
    ring

/-- The cargo shipment loop only reads the uniform stream pointwise. -/
theorem cargoLoop_congr (pt dp st : ℚ) (u1 u2 : ℕ → ℚ) (hu : ∀ i, u1 i = u2 i) :
    ∀ n i te ps, cargoLoop pt dp st u1 n i te ps = cargoLoop pt dp st u2 n i te ps := by
  intro n
  induction n with
  | zero => intro i te ps; rfl
  | succ m ih =>
    intro i te ps
    simp only [cargoLoop, hu i, ih]

/-- With a non-positive processing time and no delayed shipment, every drawn
shipment fits in the window, so the loop counts all of them. -/
theorem cargoLoop_nonpos_processing (pt dp st : ℚ) (u : ℕ → ℚ)
    (hpt : pt ≤ 0) (hu : ∀ i, ¬ (u i < dp)) :
    ∀ n i te ps, te ≤ st → cargoLoop pt dp st u n i te ps = ps + n := by
  intro n
  induction n with
  | zero => intro i te ps hte; simp [cargoLoop]
  | succ m ih =>
    intro i te ps hte
    simp only [cargoLoop, if_neg (hu i), mul_one]
    rw [if_pos (by linarith)]
    rw [ih (i + 1) (te + pt) (ps + 1) (by linarith)]
    ring

/-- Summing the NaN-as-0 replacements equals summing the non-NaN entries. -/
theorem sum_getD_eq (l : List (Option ℚ)) :
    (l.map (fun o => o.getD 0)).sum = (l.filterMap id).sum := by
  induction l with
  | nil => rfl
  | cons hd tl ih => cases hd <;> simp [ih]

/-- Counting the non-NaN entries equals the length of the non-NaN sublist. -/
theorem count_isSome_eq (l : List (Option ℚ)) :
    (l.filter (fun o => o.isSome)).length = (l.filterMap id).length := by
  induction l with
  | nil => rfl
  | cons hd tl ih => cases hd <;> simp [ih]

/-- On a batch with at least one defined error, `np.nanmean` is the mean of the
defined entries. -/
theorem nanmean_eq (l : List (Option ℚ)) (h : l.filterMap id ≠ []) :
    nanmean l = some ((l.filterMap id).sum / (l.filterMap id).length) := by
  unfold nanmean
  rw [count_isSome_eq, sum_getD_eq]
  rw [if_neg (fun hc => h (List.length_eq_zero.mp hc))]

/-- Value of `crew_time_requirements` on the spec's test point: the domain
checks pass and the computed time is already non-negative, so the `max 0`
floor is the identity. -/
theorem crew_time_requirements_at_five : crew_time_requirements 5 0.8 =
    Except.ok (15.01 * 5 * (1 - (0.8 : ℝ) ^ (10.41 : ℝ))) := by
  have h1 : ¬ ((5:ℝ) < 0) := by norm_num
  have h2 : (0:ℝ) ≤ 0.8 ∧ (0.8:ℝ) ≤ 1 := by norm_num
  rw [crew_time_requirements, if_neg h1, if_neg (not_not_intro h2)]
  have hle : (0.8:ℝ) ^ (10.41:ℝ) ≤ 1 :=
    Real.rpow_le_one (by norm_num) (by norm_num) (by norm_num)
  have hnn : (0:ℝ) ≤ 15.01 * 5 * (1 - (0.8:ℝ) ^ (10.41:ℝ)) := by nlinarith
  rw [max_eq_right hnn]

/-- The exponential automation effect at `0.8` is below `0.8` itself. -/
theorem crew_time_rpow_lt : (0.8:ℝ) ^ (10.41:ℝ) < 0.8 := by
  have h := Real.rpow_lt_rpow_of_exponent_gt (x := (0.8:ℝ)) (y := 10.41) (z := 1)
    (by norm_num) (by norm_num) (by norm_num)
  rwa [Real.rpow_one] at h

/-- The batch run on the single valid payload row succeeds: the predicted value
is `1.05 * 2000 / 650 = 42/13` and the percentage error against the reference
value 3 is `100/13`. -/
theorem validate_model_ok_single :
    validate_model predict_payload_maneuverability [⟨[500, 2000, 3/10], 3⟩] =
      Except.ok ([42/13], [some (100/13)], some (100/13)) := by
  have hp : predict_payload_maneuverability [500, 2000, 3/10] = Except.ok (42/13) := by
    norm_num [predict_payload_maneuverability, payload_maneuverability]
  have he : compute_error (42/13) 3 = some (100/13) := by
    norm_num [compute_error, abs_of_pos]
  simp [validate_model, List.mapM, List.mapM.loop, hp, he, nanmean, except_ok_bind]

/-- With an all-zero draw stream the simulated clock never advances, so no
amount of fuel finishes the power-availability loop. -/
theorem powerLoop_zero_draws (fuel : ℕ) : ∀ (i : ℕ) (operational : Bool),
    powerLoop 1 1 1 (fun _ => 0) fuel i operational 0 0 = none := by
  induction fuel with
  | zero =>
    intro i operational
    simp [powerLoop]
  | succ m ih =>
    intro i operational
    cases operational <;> simp [powerLoop] <;> exact ih _ _

/-- Loop invariant of the power-availability loop: with non-negative draws the
accumulated operational time returned on exit lies in `[0, horizon]`. -/
theorem powerLoop_bounds (mtbf mttr T : ℚ) (draws : ℕ → ℚ)
    (hb : 0 < mtbf) (hr : 0 < mttr) (hdraws : ∀ i, 0 ≤ draws i) :
    ∀ (fuel i : ℕ) (operational : Bool) (t opT : ℚ),
      0 ≤ opT → opT ≤ t → opT ≤ T →
      ∀ r, powerLoop mtbf mttr T draws fuel i operational t opT = some r →
        0 ≤ r ∧ r ≤ T := by
  intro fuel
  induction fuel with
  | zero =>
    intro i oper t opT h0 hot hoT r hr2
    rw [powerLoop] at hr2
    split_ifs at hr2 with h
    all_goals first
      | exact Option.noConfusion hr2
      | (cases Option.some.inj hr2; exact ⟨h0, hoT⟩)
  | succ m ih =>
    intro i oper t opT h0 hot hoT r hr2
    rw [powerLoop] at hr2
    by_cases hlt : t < T
    · rw [if_pos hlt] at hr2
      cases oper with
      | true =>
        simp only [if_true] at hr2
        by_cases hbr : t + mtbf * draws i > T
        · rw [if_pos hbr] at hr2
          cases Option.some.inj hr2
          constructor
          · linarith
          · linarith
        · rw [if_neg hbr] at hr2
          push_neg at hbr
          have hd : 0 ≤ mtbf * draws i := mul_nonneg hb.le (hdraws i)
          exact ih (i + 1) false (t + mtbf * draws i) (opT + mtbf * draws i)
            (by linarith) (by linarith) (by linarith) r hr2
      | false =>
        simp only [Bool.false_eq_true, if_false] at hr2
        have hd : 0 ≤ mttr * draws i := mul_nonneg hr.le (hdraws i)
        exact ih (i + 1) true (t + mttr * draws i) opT h0 (by linarith) hoT r hr2
    · rw [if_neg hlt] at hr2
      cases Option.some.inj hr2
      exact ⟨h0, hoT⟩

/-- With draws bounded below by `ε > 0`, every iteration advances the clock by
at least `min (mtbf*ε) (mttr*ε)`, so enough fuel finishes the loop. -/
theorem powerLoop_terminates (mtbf mttr T ε : ℚ) (draws : ℕ → ℚ)
    (hb : 0 < mtbf) (hr : 0 < mttr) (hε : 0 < ε) (hdraws : ∀ i, ε ≤ draws i) :
    ∀ (fuel i : ℕ) (oper : Bool) (t opT : ℚ),
      T ≤ t + fuel * min (mtbf * ε) (mttr * ε) →
      ∃ r, powerLoop mtbf mttr T draws fuel i oper t opT = some r := by
  intro fuel
  induction fuel with
  | zero =>
    intro i oper t opT hfuel
    rw [powerLoop]
    rw [if_neg (not_lt.mpr (by push_cast at hfuel; linarith))]
    exact ⟨opT, rfl⟩
  | succ m ih =>
    intro i oper t opT hfuel
    rw [powerLoop]
    by_cases hlt : t < T
    · rw [if_pos hlt]
      cases oper with
      | true =>
        simp only [if_true]
        by_cases hbr : t + mtbf * draws i > T
        · rw [if_pos hbr]
          exact ⟨_, rfl⟩
        · rw [if_neg hbr]
          apply ih
          have h1 : min (mtbf * ε) (mttr * ε) ≤ mtbf * draws i :=
            le_trans (min_le_left _ _) (mul_le_mul_of_nonneg_left (hdraws i) hb.le)
          push_cast at hfuel ⊢
          linarith
      | false =>
        simp only [Bool.false_eq_true, if_false]
        apply ih
        have h1 : min (mtbf * ε) (mttr * ε) ≤ mttr * draws i :=
          le_trans (min_le_right _ _) (mul_le_mul_of_nonneg_left (hdraws i) hr.le)
        push_cast at hfuel ⊢
        linarith
    · rw [if_neg hlt]
      exact ⟨opT, rfl⟩

/-! ### Claim theorems -/

/-- C1 (counterexample): `crew_time_requirements(5, 0.8)` does not return 10.0.
The implemented policy is `15.01 * complexity * (1 - automation ^ 10.41)`, and
since `0.8 ^ 10.41 < 0.8` the value exceeds 15, hence is not 10. -/
theorem crew_time_linear_policy_counterexample :
    crew_time_requirements 5 0.8 ≠ Except.ok 10 := by
  rw [crew_time_requirements_at_five]
  intro h
  have h2 : 15.01 * 5 * (1 - (0.8 : ℝ) ^ (10.41 : ℝ)) = 10 := Except.ok.inj h
  nlinarith [crew_time_rpow_lt]

/-- C1 (amended): `crew_time_requirements(5, 0.8)` returns the exponential
policy value `15.01 * 5 * (1 - 0.8 ^ 10.41)` (≈ 67.7 minutes) — the scaling
factor of the source is 15.01 and the automation effect exponential, not the
linear `complexity * 10 * (1 - automation)` policy. -/
theorem crew_time_exponential_value :
    crew_time_requirements 5 0.8 =
      Except.ok (15.01 * 5 * (1 - (0.8 : ℝ) ^ (10.41 : ℝ))) :=
  crew_time_requirements_at_five

/-- C2 (failing input evaluated): `validate_model` has no try/except, so on a
dataset whose first row violates the domain (terrain complexity −1) and whose
second row is valid, the `ValueError` from the first row propagates and aborts
the whole batch: no output is produced for any row, including the later valid
one. -/
theorem validate_model_aborts_on_invalid_row :
    validate_model predict_payload_maneuverability
      [⟨[500, 2000, -1], 3⟩, ⟨[500, 2000, 3/10], 3⟩] =
      Except.error ModelError.invalidInput := by
  rfl

/-- C3 (determinism half): once the hidden global generators are modelled as
explicit streams, `simulate_cargo_flow` is a pure function of its parameters
and those streams — two runs reading pointwise-equal random streams return the
same shipment count. -/
theorem simulate_cargo_flow_deterministic
    (arrival_rate processing_time delay_probability simulation_time : ℚ)
    (poisson1 poisson2 : ℚ → ℕ) (u1 u2 : ℕ → ℚ)
    (hp : ∀ q, poisson1 q = poisson2 q) (hu : ∀ i, u1 i = u2 i) :
    simulate_cargo_flow arrival_rate processing_time delay_probability simulation_time
        poisson1 u1 =
      simulate_cargo_flow arrival_rate processing_time delay_probability simulation_time
        poisson2 u2 := by
  rw [simulate_cargo_flow, simulate_cargo_flow, hp]
  exact cargoLoop_congr processing_time delay_probability simulation_time u1 u2 hu _ 0 0 0

/-- Witness for C3's determinism theorem at concrete parameters and streams. -/
theorem simulate_cargo_flow_deterministic_witness :
    simulate_cargo_flow 5 (3/2) (1/10) 24 (fun _ => 3) (fun _ => 1/2) =
      simulate_cargo_flow 5 (3/2) (1/10) 24 (fun _ => 2 + 1) (fun _ => 2/4) :=
  simulate_cargo_flow_deterministic 5 (3/2) (1/10) 24 _ _ _ _
    (fun q => by norm_num) (fun i => by norm_num)

/-- C4 (failing inputs evaluated): the simulation routines perform no input
validation.  `simulate_rover_tasks` with the negative speed −1 returns the
negative task count −72 without any error, and `simulate_cargo_flow` with the
negative processing time −1 happily processes all five drawn shipments. -/
theorem simulation_routines_skip_validation :
    simulate_rover_tasks 2 (-1) 100 3600 = Except.ok (-72) ∧
    simulate_cargo_flow 24 (-1) 0 1 (fun _ => 5) (fun _ => 1) = 5 := by
  constructor
  · have hs0 : (-1 : ℚ) ≠ 0 := by norm_num
    have htp : (100 : ℚ) / (-1) ≠ 0 := by norm_num
    rw [simulate_rover_tasks, if_neg hs0]
    simp only [if_neg htp]
    rw [foldlM_const_add]
    norm_num
  · rw [simulate_cargo_flow]
    rw [cargoLoop_nonpos_processing (-1) 0 1 (fun _ => 1) (by norm_num)
      (fun i => by norm_num) _ 0 0 0 (by norm_num)]

/-- C5 (counterexample): `payload_maneuverability(500, 2000, 0.3)` does not
return the bare physical value `2000 / (500 * 1.3) = 40/13`: the source scales
it by the calibration constant `K = 1.05`. -/
theorem payload_unclamped_value_counterexample :
    payload_maneuverability 500 2000 (3/10) ≠
      Except.ok (2000 / (500 * (1 + 3/10))) := by
  norm_num [payload_maneuverability]

/-- C5 (amended): `payload_maneuverability(500, 2000, 0.3)` returns the
unclamped value scaled by `K = 1.05`:
`(2000 / (500 * 1.3)) * 1.05 = 42/13 ≈ 3.2308` m/s. -/
theorem payload_scaled_value :
    payload_maneuverability 500 2000 (3/10) = Except.ok (42/13) := by
  norm_num [payload_maneuverability]

/-- C6: each analytic model raises `InvalidInput` exactly on the documented
domain violations (payload: mass ≤ 0 or power ≤ 0 or terrain < 0; crew time:
complexity < 0 or automation outside `[0,1]`; position accuracy: power ≤ 0 or
noise < 0 or variability < 0), and on every other input returns a value: each
result is either a success or that single error. -/
theorem model_domain_validation :
    (∀ m p t : ℚ, payload_maneuverability m p t = Except.error ModelError.invalidInput ↔
      m ≤ 0 ∨ p ≤ 0 ∨ t < 0) ∧
    (∀ c a : ℝ, crew_time_requirements c a = Except.error ModelError.invalidInput ↔
      c < 0 ∨ a < 0 ∨ 1 < a) ∧
    (∀ p n v : ℚ, position_location_accuracy p n v = Except.error ModelError.invalidInput ↔
      p ≤ 0 ∨ n < 0 ∨ v < 0) ∧
    (∀ m p t : ℚ, (∃ y, payload_maneuverability m p t = Except.ok y) ∨
      payload_maneuverability m p t = Except.error ModelError.invalidInput) ∧
    (∀ c a : ℝ, (∃ y, crew_time_requirements c a = Except.ok y) ∨
      crew_time_requirements c a = Except.error ModelError.invalidInput) ∧
    (∀ p n v : ℚ, (∃ y, position_location_accuracy p n v = Except.ok y) ∨
      position_location_accuracy p n v = Except.error ModelError.invalidInput) := by
  refine ⟨?_, ?_, ?_, ?_, ?_, ?_⟩
  · intro m p t
    unfold payload_maneuverability
    split_ifs with h1 h2 <;> simp_all <;> tauto
  · intro c a
    unfold crew_time_requirements
    split_ifs with h1 h2
    · exact iff_of_true rfl (Or.inl h1)
    · refine iff_of_false (by simp) ?_
      rintro (h | h | h)
      · exact h1 h
      · exact absurd h2.1 (not_le.mpr h)
      · exact absurd h2.2 (not_le.mpr h)
    · refine iff_of_true rfl ?_
      rcases not_and_or.mp h2 with h | h
      · exact Or.inr (Or.inl (lt_of_not_le h))
      · exact Or.inr (Or.inr (lt_of_not_le h))
  · intro p n v
    unfold position_location_accuracy
    split_ifs with h1 h2 <;> simp_all <;> tauto
  · intro m p t
    cases payload_maneuverability m p t with
    | error e => cases e; exact Or.inr rfl
    | ok y => exact Or.inl ⟨y, rfl⟩
  · intro c a
    cases crew_time_requirements c a with
    | error e => cases e; exact Or.inr rfl
    | ok y => exact Or.inl ⟨y, rfl⟩
  · intro p n v
    cases position_location_accuracy p n v with
    | error e => cases e; exact Or.inr rfl
    | ok y => exact Or.inl ⟨y, rfl⟩

/-- C7: `compute_error` returns `|predicted - actual| / actual * 100` whenever
`actual ≠ 0` and the NaN sentinel exactly when `actual = 0`; the mean reported
by `validate_model` is `np.nanmean` of the per-row errors, which on a batch
with at least one defined error equals the mean of the non-NaN entries. -/
theorem compute_error_and_mean_aggregation :
    (∀ p a : ℚ, a ≠ 0 → compute_error p a = some (|p - a| / a * 100)) ∧
    (∀ p a : ℚ, compute_error p a = none ↔ a = 0) ∧
    (∀ l : List (Option ℚ), l.filterMap id ≠ [] →
      nanmean l = some ((l.filterMap id).sum / (l.filterMap id).length)) ∧
    (∀ (pf : List ℚ → Except ModelError ℚ) (rows : List ValidationRow)
      (out : List ℚ × List (Option ℚ) × Option ℚ),
      validate_model pf rows = Except.ok out → out.2.2 = nanmean out.2.1) := by
  refine ⟨?_, ?_, ?_, ?_⟩
  · intro p a h
    rw [compute_error, if_pos h]
  · intro p a
    unfold compute_error
    split_ifs with h
    · exact iff_of_false (by simp) h
    · exact iff_of_true rfl (not_not.mp h)
  · exact nanmean_eq
  · intro pf rows out h
    unfold validate_model at h
    cases hm : rows.mapM (fun row => do
        let predicted ← pf row.inputs
        pure (compute_error predicted row.actual)) with
    | error e => rw [hm] at h; exact Except.noConfusion h
    | ok errs =>
      rw [hm] at h
      cases hm2 : rows.mapM (fun row => pf row.inputs) with
      | error e =>
        rw [show ((Except.ok errs : Except ModelError (List (Option ℚ))) >>= fun errors =>
          (rows.mapM fun row => pf row.inputs) >>= fun predictedCol =>
          pure (predictedCol, errors, nanmean errors)) =
          ((rows.mapM fun row => pf row.inputs) >>= fun predictedCol =>
          pure (predictedCol, errs, nanmean errs)) from rfl, hm2] at h
        exact Except.noConfusion h
      | ok preds =>
        rw [show ((Except.ok errs : Except ModelError (List (Option ℚ))) >>= fun errors =>
          (rows.mapM fun row => pf row.inputs) >>= fun predictedCol =>
          pure (predictedCol, errors, nanmean errors)) =
          ((rows.mapM fun row => pf row.inputs) >>= fun predictedCol =>
          pure (predictedCol, errs, nanmean errs)) from rfl, hm2] at h
        have h2 : (preds, errs, nanmean errs) = out := Except.ok.inj h
        rw [← h2]

/-- Witness for C7 at concrete inputs: a non-zero reference value, a batch with
one NaN entry, and a successful one-row validation run. -/
theorem compute_error_and_mean_aggregation_witness :
    compute_error 3 2 = some (|(3:ℚ) - 2| / 2 * 100) ∧
    nanmean [some 10, none, some 20] =
      some ((([some 10, none, some 20] : List (Option ℚ)).filterMap id).sum /
        (([some 10, none, some 20] : List (Option ℚ)).filterMap id).length) ∧
    (([42/13], [some (100/13)], some (100/13)) :
        List ℚ × List (Option ℚ) × Option ℚ).2.2 =
      nanmean (([42/13], [some (100/13)], some (100/13)) :
        List ℚ × List (Option ℚ) × Option ℚ).2.1 :=
  ⟨compute_error_and_mean_aggregation.1 3 2 (by norm_num),
   compute_error_and_mean_aggregation.2.2.1 [some 10, none, some 20] (by simp),
   compute_error_and_mean_aggregation.2.2.2 predict_payload_maneuverability
     [⟨[500, 2000, 3/10], 3⟩] ([42/13], [some (100/13)], some (100/13))
     validate_model_ok_single⟩

/-- C8: `simulate_rover_tasks` is a pure deterministic function (it consumes no
random stream), and for a non-negative rover count, positive speed and
distance, and non-negative window it returns
`num_rovers * floor(simulation_time / (task_distance / rover_speed))`. -/
theorem simulate_rover_tasks_formula (num_rovers : ℤ)
    (rover_speed task_distance simulation_time : ℚ)
    (hn : 0 ≤ num_rovers) (hs : 0 < rover_speed) (hd : 0 < task_distance)
    (ht : 0 ≤ simulation_time) :
    simulate_rover_tasks num_rovers rover_speed task_distance simulation_time =
      Except.ok (num_rovers * ⌊simulation_time / (task_distance / rover_speed)⌋) := by
  have hs0 : rover_speed ≠ 0 := ne_of_gt hs
  have htp : task_distance / rover_speed ≠ 0 := by positivity
  rw [simulate_rover_tasks, if_neg hs0]
  simp only [if_neg htp]
  rw [foldlM_const_add]
  rw [List.length_range, Int.toNat_of_nonneg hn]
  ring_nf

/-- Witness for C8: the spec's concrete case
`simulate_rover_tasks(2, 1.0, 100, 3600) = 2 * floor(3600/100) = 72`. -/
theorem simulate_rover_tasks_formula_witness :
    simulate_rover_tasks 2 1 100 3600 = Except.ok 72 := by
  have h := simulate_rover_tasks_formula 2 1 100 3600 (by norm_num) (by norm_num)
    (by norm_num) (by norm_num)
  rw [h]
  norm_num

/-- C9 (counterexample): with the all-zero draw stream — a sequence of
non-negative sojourn-time draws — the clock of `simulate_power_availability`
never advances and the `while` loop never exits, so the function does not
terminate, let alone reach the horizon. -/
theorem power_availability_zero_draws_diverge :
    ¬ PowerTerminates 1 1 1 (fun _ => 0) := by
  rintro ⟨fuel, r, hr⟩
  rw [simulate_power_availability, powerLoop_zero_draws fuel 0 true] at hr
  exact Option.noConfusion hr

/-- C9 (amended): for positive `mtbf`, `mttr` and horizon, and any draw stream
bounded below by some `ε > 0` (exponential draws are almost surely positive,
but a zero draw is representable and defeats termination), the loop terminates
with the clock reaching the horizon — the final operational interval being
truncated at the horizon in the break branch — and the returned operational
fraction lies in `[0, 1]`. -/
theorem simulate_power_availability_props
    (mtbf mttr simulation_time ε : ℚ) (expDraws : ℕ → ℚ)
    (hb : 0 < mtbf) (hr : 0 < mttr) (hT : 0 < simulation_time) (hε : 0 < ε)
    (hdraws : ∀ i, ε ≤ expDraws i) :
    ∃ fuel r, simulate_power_availability mtbf mttr simulation_time expDraws fuel = some r ∧
      0 ≤ r ∧ r ≤ 1 := by
  have hδ : 0 < min (mtbf * ε) (mttr * ε) := lt_min (by positivity) (by positivity)
  obtain ⟨fuel, hfuel⟩ : ∃ fuel : ℕ,
      simulation_time ≤ 0 + fuel * min (mtbf * ε) (mttr * ε) := by
    refine ⟨⌈simulation_time / min (mtbf * ε) (mttr * ε)⌉₊, ?_⟩
    rw [zero_add]
    have h1 : simulation_time / min (mtbf * ε) (mttr * ε) ≤
        ⌈simulation_time / min (mtbf * ε) (mttr * ε)⌉₊ := Nat.le_ceil _
    rw [div_le_iff hδ] at h1
    exact h1
  obtain ⟨v, hv⟩ := powerLoop_terminates mtbf mttr simulation_time ε expDraws
    hb hr hε hdraws fuel 0 true 0 0 hfuel
  have hbounds := powerLoop_bounds mtbf mttr simulation_time expDraws hb hr
    (fun i => le_trans hε.le (hdraws i)) fuel 0 true 0 0 le_rfl le_rfl hT.le v hv
  refine ⟨fuel, v / simulation_time, ?_, ?_, ?_⟩
  · rw [simulate_power_availability, hv]
    rfl
  · exact div_nonneg hbounds.1 hT.le
  · rw [div_le_one hT]
    exact hbounds.2

/-- Witness for C9's amended theorem: unit parameters and the constant draw
stream 1, bounded below by `ε = 1`. -/
theorem simulate_power_availability_props_witness :
    ∃ fuel r, simulate_power_availability 1 1 1 (fun _ => 1) fuel = some r ∧
      0 ≤ r ∧ r ≤ 1 :=
  simulate_power_availability_props 1 1 1 1 (fun _ => 1)
    (by norm_num) (by norm_num) (by norm_num) (by norm_num) (fun i => le_refl 1)

/-- C10: on the whole valid domain of `position_location_accuracy` the raw
ratio `power / (power + 50 * (1 + noise + variability))` already lies strictly
between 0 and 1, so the final `max 0 (min 1 ·)` clamp is the identity and the
function returns the unclamped formula. -/
theorem position_accuracy_clamp_identity (p n v : ℚ)
    (hp : 0 < p) (hn : 0 ≤ n) (hv : 0 ≤ v) :
    position_location_accuracy p n v =
      Except.ok (p / (p + 50 * (1 + n + v))) ∧
    0 < p / (p + 50 * (1 + n + v)) ∧ p / (p + 50 * (1 + n + v)) < 1 := by
  have hD : 0 < p + 50 * (1 + n + v) := by linarith
  have h0 : 0 < p / (p + 50 * (1 + n + v)) := div_pos hp hD
  have h1 : p / (p + 50 * (1 + n + v)) < 1 := by
    rw [div_lt_one hD]
    linarith
  refine ⟨?_, h0, h1⟩
  rw [position_location_accuracy, if_neg (not_le.mpr hp),
    if_neg (by push_neg; exact ⟨hn, hv⟩)]
  rw [min_eq_right h1.le, max_eq_right h0.le]

/-- Witness for C10 at the spec's test point `(1000, 0.2, 0.1)`, where the
returned accuracy is `1000/1065 = 200/213 ≈ 0.939`. -/
theorem position_accuracy_clamp_identity_witness :
    position_location_accuracy 1000 (1/5) (1/10) =
      Except.ok ((1000 : ℚ) / (1000 + 50 * (1 + 1/5 + 1/10))) ∧
    0 < (1000 : ℚ) / (1000 + 50 * (1 + 1/5 + 1/10)) ∧
    (1000 : ℚ) / (1000 + 50 * (1 + 1/5 + 1/10)) < 1 :=
  position_accuracy_clamp_identity 1000 (1/5) (1/10)
    (by norm_num) (by norm_num) (by norm_num)
